import Mathlib

/-!
Verification of the grid data model and memory-layout contract of the
pytopotoolbox wrapper: column-major raster storage, the dimension
descriptor handed to native routines, and the elementwise operator
semantics of `GridObject`.
-/

namespace PyTopoToolbox

/-- Row-major access into a nested-list raster: `m[i][j]` with default 0,
as in the notebook's `array_c = np.array([[1,2,3],...])` row-major source. -/
def rowMajorGet (m : List Int) (cols i j : Nat) : Int :=
  m.getD (i * cols + j) 0

/-- Column-major flattening (`np.ndarray.flatten(order='F')` in
`docs/dev/wrapping.ipynb`): for `j` in `0..cols-1`, for `i` in `0..rows-1`,
emit the cell at row `i`, column `j`.  Defined by recursion on the number of
columns already emitted: `flattenF rm rows cols c` is the buffer after
emitting columns `0..c-1`. -/
def flattenF (rm : Nat → Nat → Int) (rows : Nat) : Nat → List Int
  | 0 => []
  | c + 1 => flattenF rm rows c ++ (List.range rows).map (fun i => rm i c)

/-- Flat-buffer access at `location = j * dims[0] + i`
(`docs/dev/wrapping.ipynb`: `location = j * dims[0] + i`). -/
def flatGet (buf : List Int) (rows i j : Nat) : Option Int :=
  buf[j * rows + i]?

/-- The dimension descriptor `dims` passed alongside a buffer
(`dims = array_f.shape`): the pair `(rows, columns)`. -/
def dims (rows cols : Nat) : Nat × Nat :=
  (rows, cols)

/-- Decoding of a flat index back into `(row, col)`
(`docs/dev/wrapping.ipynb`: `col = index // dims[0]; row = index % dims[0]`). -/
def decodeIndex (d : Nat × Nat) (index : Nat) : Nat × Nat :=
  (index % d.1, index / d.1)

/-- The worked 4-row by 3-column example raster of the notebook,
row-major content `[[1,2,3],[4,5,6],[7,8,9],[10,11,12]]`. -/
def ex43 : List Int :=
  [1, 2, 3, 4, 5, 6, 7, 8, 9, 10, 11, 12]

theorem flattenF_length (rm : Nat → Nat → Int) (rows : Nat) :
    ∀ cols, (flattenF rm rows cols).length = cols * rows := by
  intro cols
  induction cols with
  | zero => simp [flattenF]
  | succ c ih =>
    simp [flattenF, ih, Nat.succ_mul]

theorem flattenF_get (rm : Nat → Nat → Int) (rows : Nat) :
    ∀ cols i j, i < rows → j < cols →
      (flattenF rm rows cols)[j * rows + i]? = some (rm i j) := by
  intro cols
  induction cols with
  | zero => intro i j _ hj; exact absurd hj (Nat.not_lt_zero j)
  | succ c ih =>
    intro i j hi hj
    rcases Nat.lt_succ_iff_lt_or_eq.mp hj with hj' | hj'
    · have hb : j * rows + i < (flattenF rm rows c).length := by
        rw [flattenF_length]
        calc j * rows + i < j * rows + rows := Nat.add_lt_add_left hi _
          _ = (j + 1) * rows := (Nat.succ_mul j rows).symm
          _ ≤ c * rows := Nat.mul_le_mul_right rows hj'
      rw [flattenF, List.getElem?_append, if_pos hb]
      exact ih i j hi hj'
    · subst hj'
      have hb : (flattenF rm rows j).length ≤ j * rows + i := by
        rw [flattenF_length]; exact Nat.le_add_right _ _
      rw [flattenF, List.getElem?_append_right hb, flattenF_length]
      have hidx : j * rows + i - j * rows = i := by omega
      rw [hidx, List.getElem?_map, List.getElem?_range hi]
      rfl

/-- Modelled from the spec: the ownership model of Raster Buffer cell
storage.  The repository's `GridObject` implementation itself is not in the
sources (only notebooks and build configuration are); the spec states that
"derived rasters always get a private copy or a freshly computed buffer,
never a shared mutable view".  The store holds each raster's cell buffer at
its own slot; creating a raster (fresh or derived) appends a new buffer. -/
structure Store where
  bufs : List (List Int)

/-- Modelled from the spec: create a raster owning a fresh buffer; returns
the new store and the new raster's buffer identifier. -/
def newRaster (s : Store) (cells : List Int) : Store × Nat :=
  (⟨s.bufs ++ [cells]⟩, s.bufs.length)

/-- Modelled from the spec: a derived computation from another Raster
Buffer (e.g. a gradient grid derived from a DEM by `gradient8`) holds "a
new, independently owned cell buffer": the freshly computed cells get a
fresh slot, never a view on the source's slot. -/
def deriveRaster (s : Store) (src : Nat) (compute : List Int → List Int) :
    Store × Nat :=
  newRaster s (compute (s.bufs.getD src []))

/-- Modelled from the spec: in-place mutation of one cell of the raster
with buffer identifier `id`. -/
def setCell (s : Store) (id idx : Nat) (v : Int) : Store :=
  ⟨s.bufs.set id ((s.bufs.getD id []).set idx v)⟩

/-- Read a raster's whole cell buffer. -/
def readBuf (s : Store) (id : Nat) : List Int :=
  s.bufs.getD id []

theorem setCell_ne (s : Store) (a b idx : Nat) (v : Int) (hab : a ≠ b) :
    readBuf (setCell s a idx v) b = readBuf s b := by
  unfold readBuf setCell
  simp only [List.getD, List.get?_eq_getElem?]
  rw [List.getElem?_set_ne hab]

/-- Modelled from the spec: the error taxonomy of §7.  The `GridObject`
implementation is not in the sources, so the error kinds are taken from the
spec's taxonomy. -/
inductive GridError where
  | invalidDimension
  | indexOutOfRange
  | shapeMismatch
  | typeMismatch
  | nativeRoutine
deriving DecidableEq

/-- Modelled from the spec: a Raster Buffer — `rows`, `columns` and a flat
cell buffer in column-major order (cell `(i, j)` at index `j * rows + i`). -/
structure Grid (α : Type) where
  rows : Nat
  columns : Nat
  cells : List α
deriving DecidableEq

/-- The buffer-length invariant of §3: the buffer length always equals
`rows × columns`. -/
def Grid.Wf (g : Grid α) : Prop :=
  g.cells.length = g.rows * g.columns

/-- Modelled from the spec: bounds-checked cell read `get(row, col)` —
fails with `IndexOutOfRangeError` if either coordinate is outside
`[0, rows)` / `[0, columns)`; cell `(i, j)` lives at column-major index
`j * rows + i`. -/
def Grid.get (g : Grid α) (i j : Nat) : Except GridError α :=
  if i < g.rows ∧ j < g.columns then
    match g.cells[j * g.rows + i]? with
    | some v => Except.ok v
    | none => Except.error GridError.indexOutOfRange
  else Except.error GridError.indexOutOfRange

/-- Modelled from the spec: bounds-checked in-place cell write
`set(row, col, value)`, mutating the buffer at column-major index
`j * rows + i`. -/
def Grid.set (g : Grid α) (i j : Nat) (v : α) : Except GridError (Grid α) :=
  if i < g.rows ∧ j < g.columns then
    Except.ok ⟨g.rows, g.columns, g.cells.set (j * g.rows + i) v⟩
  else Except.error GridError.indexOutOfRange

/-- Modelled from the spec: a binary elementwise operator between two
rasters — operates cell-by-cell on rasters of identical shape and fails
with `ShapeMismatchError` on differing `rows`/`columns`.  All elementwise
comparison, arithmetic and logical operators instantiate this. -/
def zipOp (op : α → β → γ) (A : Grid α) (B : Grid β) :
    Except GridError (Grid γ) :=
  if A.rows = B.rows ∧ A.columns = B.columns then
    Except.ok ⟨A.rows, A.columns, List.zipWith op A.cells B.cells⟩
  else Except.error GridError.shapeMismatch

/-- Modelled from the spec: a raster/scalar elementwise operator — the
scalar is broadcast to every cell. -/
def mapOp (op : α → β) (A : Grid α) : Grid β :=
  ⟨A.rows, A.columns, A.cells.map op⟩

def gridAdd (A B : Grid Int) : Except GridError (Grid Int) :=
  zipOp (· + ·) A B

def gridSub (A B : Grid Int) : Except GridError (Grid Int) :=
  zipOp (· - ·) A B

def gridMul (A B : Grid Int) : Except GridError (Grid Int) :=
  zipOp (· * ·) A B

def addScalar (A : Grid Int) (k : Int) : Grid Int :=
  mapOp (· + k) A

def gridAnd (A B : Grid Bool) : Except GridError (Grid Bool) :=
  zipOp (· && ·) A B

def gridOr (A B : Grid Bool) : Except GridError (Grid Bool) :=
  zipOp (· || ·) A B

def gridXor (A B : Grid Bool) : Except GridError (Grid Bool) :=
  zipOp Bool.xor A B

def gridEq (A B : Grid Int) : Except GridError (Grid Bool) :=
  zipOp (fun a b => decide (a = b)) A B

def gridGt (A B : Grid Int) : Except GridError (Grid Bool) :=
  zipOp (fun a b => decide (a > b)) A B

theorem column_major_index_lt {g : Grid α} (hw : g.Wf) {i j : Nat}
    (hi : i < g.rows) (hj : j < g.columns) :
    j * g.rows + i < g.cells.length := by
  rw [hw]
  calc j * g.rows + i < j * g.rows + g.rows := Nat.add_lt_add_left hi _
    _ = (j + 1) * g.rows := (Nat.succ_mul j g.rows).symm
    _ ≤ g.columns * g.rows := Nat.mul_le_mul_right g.rows hj
    _ = g.rows * g.columns := Nat.mul_comm ..

theorem get_ok_of_wf {g : Grid α} (hw : g.Wf) {i j : Nat}
    (hi : i < g.rows) (hj : j < g.columns) :
    ∃ v, g.get i j = Except.ok v ∧ g.cells[j * g.rows + i]? = some v := by
  have hlt := column_major_index_lt hw hi hj
  refine ⟨g.cells[j * g.rows + i], ?_, List.getElem?_eq_getElem hlt⟩
  rw [Grid.get, if_pos ⟨hi, hj⟩, List.getElem?_eq_getElem hlt]

theorem zipWith_self (f : α → α → β) :
    ∀ l : List α, List.zipWith f l l = l.map (fun a => f a a) := by
  intro l
  induction l with
  | nil => rfl
  | cons a l ih => simp [List.zipWith, ih]

theorem get_ok_elim {g : Grid α} {i j : Nat} {v : α}
    (hi : i < g.rows) (hj : j < g.columns) (h : g.get i j = Except.ok v) :
    g.cells[j * g.rows + i]? = some v := by
  rw [Grid.get, if_pos ⟨hi, hj⟩] at h
  cases hx : g.cells[j * g.rows + i]? with
  | none => rw [hx] at h; exact absurd h (by simp)
  | some w => rw [hx] at h; exact congrArg some (Except.ok.inj h)

theorem zipOp_ok {α β γ : Type} {A : Grid α} {B : Grid β} (op : α → β → γ)
    (hr : A.rows = B.rows) (hc : A.columns = B.columns)
    {i j : Nat} (hi : i < A.rows) (hj : j < A.columns)
    {a : α} {b : β} (ha : A.get i j = Except.ok a)
    (hb : B.get i j = Except.ok b) :
    ∃ C, zipOp op A B = Except.ok C ∧ C.get i j = Except.ok (op a b) := by
  have haA := get_ok_elim hi hj ha
  have hbB := get_ok_elim (hr ▸ hi) (hc ▸ hj) hb
  have hzip :
      (List.zipWith op A.cells B.cells)[j * A.rows + i]? = some (op a b) := by
    refine List.getElem?_zipWith_eq_some.mpr ⟨a, b, haA, ?_, rfl⟩
    rw [hr]; exact hbB
  refine ⟨⟨A.rows, A.columns, List.zipWith op A.cells B.cells⟩, ?_, ?_⟩
  · rw [zipOp, if_pos ⟨hr, hc⟩]
  · rw [Grid.get, if_pos ⟨hi, hj⟩]
    rw [hzip]

theorem mapOp_get {A : Grid α} (op : α → β) {i j : Nat}
    (hi : i < A.rows) (hj : j < A.columns) {a : α}
    (ha : A.get i j = Except.ok a) :
    (mapOp op A).get i j = Except.ok (op a) := by
  have haA := get_ok_elim hi hj ha
  rw [mapOp, Grid.get, if_pos ⟨hi, hj⟩]
  rw [List.getElem?_map, haA]
  rfl

theorem zipOp_self_eq (f : α → α → α) (hf : ∀ a, f a a = a) (A : Grid α) :
    zipOp f A A = Except.ok A := by
  rw [zipOp, if_pos ⟨rfl, rfl⟩]
  congr 1
  cases A with
  | mk r c cells => simp [zipWith_self, hf]

theorem zipOp_self_const {β : Type} (f : α → α → β) (v : β)
    (hf : ∀ a, f a a = v) (A : Grid α) :
    ∃ C, zipOp f A A = Except.ok C ∧ ∀ x ∈ C.cells, x = v := by
  refine ⟨⟨A.rows, A.columns, List.zipWith f A.cells A.cells⟩, ?_, ?_⟩
  · rw [zipOp, if_pos ⟨rfl, rfl⟩]
  · intro x hx
    rw [zipWith_self] at hx
    rcases List.mem_map.mp hx with ⟨a, _, rfl⟩
    exact hf a

/-- C1: for every raster the cell at zero-based (row i, column j) sits at
flat column-major buffer index j * rows + i, so reconstructing get(i, j)
from the flat buffer reproduces the original value at every coordinate;
for the 4-row by 3-column raster with row-major content
[[1,2,3],[4,5,6],[7,8,9],[10,11,12]] the column-major flat buffer is
[1,4,7,10,2,5,8,11,3,6,9,12] and get(1,2) returns 6. -/
theorem c1_column_major_layout (rm : Nat → Nat → Int) (rows cols i j : Nat)
    (hi : i < rows) (hj : j < cols) :
    flatGet (flattenF rm rows cols) rows i j = some (rm i j) ∧
    flattenF (rowMajorGet ex43 3) 4 3 =
      [1, 4, 7, 10, 2, 5, 8, 11, 3, 6, 9, 12] ∧
    flatGet (flattenF (rowMajorGet ex43 3) 4 3) 4 1 2 = some 6 :=
  ⟨flattenF_get rm rows cols i j hi hj, by decide, by decide⟩

theorem c1_witness :
    flatGet (flattenF (rowMajorGet ex43 3) 4 3) 4 1 2 =
      some (rowMajorGet ex43 3 1 2) :=
  (c1_column_major_layout (rowMajorGet ex43 3) 4 3 1 2 (by decide)
    (by decide)).1

/-- C3: the dimension descriptor accompanying every buffer is the pair
(rows, columns) whose first component counts the dimension that varies
fastest in memory: decoding any flat index with stride dims.1
(row = index mod dims.1, col = index div dims.1) recovers the stored cell,
the first component equals rows, and the worked 4x3 example's descriptor
is (4, 3). -/
theorem c3_dims_descriptor (rm : Nat → Nat → Int) (rows cols index : Nat)
    (h : index < rows * cols) :
    (dims rows cols).1 = rows ∧
    (flattenF rm rows cols)[index]? =
      some (rm (decodeIndex (dims rows cols) index).1
        (decodeIndex (dims rows cols) index).2) ∧
    dims 4 3 = (4, 3) := by
  have hrows : 0 < rows := by
    rcases Nat.eq_zero_or_pos rows with h0 | h0
    · subst h0; simp at h
    · exact h0
  have hi : index % rows < rows := Nat.mod_lt index hrows
  have hj : index / rows < cols :=
    (Nat.div_lt_iff_lt_mul hrows).mpr (Nat.mul_comm rows cols ▸ h)
  have key := flattenF_get rm rows cols (index % rows) (index / rows) hi hj
  have hidx : index / rows * rows + index % rows = index := by
    rw [Nat.mul_comm]; exact Nat.div_add_mod index rows
  rw [hidx] at key
  exact ⟨rfl, key, rfl⟩

theorem c3_witness :
    (flattenF (rowMajorGet ex43 3) 4 3)[9]? =
      some (rowMajorGet ex43 3 (decodeIndex (dims 4 3) 9).1
        (decodeIndex (dims 4 3) 9).2) :=
  (c3_dims_descriptor (rowMajorGet ex43 3) 4 3 9 (by decide)).2.1

/-- C2: distinct rasters never share cell storage: a raster derived from
another (such as a gradient grid computed from a DEM) receives a fresh
buffer identifier distinct from its source, mutating either of the two
leaves every cell of the other unchanged, and in general mutating any
raster leaves every distinct raster's buffer unchanged. -/
theorem c2_no_buffer_aliasing (s : Store) (src : Nat)
    (hsrc : src < s.bufs.length) (compute : List Int → List Int)
    (idx idx2 : Nat) (v w : Int) :
    (deriveRaster s src compute).2 ≠ src ∧
    readBuf (setCell (deriveRaster s src compute).1
        (deriveRaster s src compute).2 idx v) src =
      readBuf (deriveRaster s src compute).1 src ∧
    readBuf (setCell (deriveRaster s src compute).1 src idx2 w)
        (deriveRaster s src compute).2 =
      readBuf (deriveRaster s src compute).1 (deriveRaster s src compute).2 ∧
    ∀ a b : Nat, a ≠ b → readBuf (setCell s a idx v) b = readBuf s b := by
  have hid : (deriveRaster s src compute).2 = s.bufs.length := rfl
  refine ⟨?_, ?_, ?_, fun a b hab => setCell_ne s a b idx v hab⟩
  · rw [hid]; omega
  · exact setCell_ne _ _ _ _ _ (by rw [hid]; omega)
  · exact setCell_ne _ _ _ _ _ (by rw [hid]; omega)

theorem c2_witness : (deriveRaster (Store.mk [[1]]) 0 id).2 ≠ 0 :=
  (c2_no_buffer_aliasing (Store.mk [[1]]) 0 (by decide) id 0 0 1 2).1

/-- The 4x4 raster of the notebooks' worked bounds example. -/
def ex44 : Grid Int :=
  ⟨4, 4, List.replicate 16 0⟩

/-- A 5x5 raster for the shape-mismatch example. -/
def ex55 : Grid Int :=
  ⟨5, 5, List.replicate 25 0⟩

/-- C4: for rasters of identical shape, addition, subtraction and
multiplication act cell-by-cell, and adding a scalar broadcasts it to
every cell. -/
theorem c4_elementwise_arithmetic (A B : Grid Int)
    (hr : A.rows = B.rows) (hc : A.columns = B.columns)
    (i j : Nat) (hi : i < A.rows) (hj : j < A.columns)
    (a b k : Int) (ha : A.get i j = Except.ok a)
    (hb : B.get i j = Except.ok b) :
    (∃ C, gridAdd A B = Except.ok C ∧ C.get i j = Except.ok (a + b)) ∧
    (∃ C, gridSub A B = Except.ok C ∧ C.get i j = Except.ok (a - b)) ∧
    (∃ C, gridMul A B = Except.ok C ∧ C.get i j = Except.ok (a * b)) ∧
    (addScalar A k).get i j = Except.ok (a + k) :=
  ⟨zipOp_ok _ hr hc hi hj ha hb, zipOp_ok _ hr hc hi hj ha hb,
    zipOp_ok _ hr hc hi hj ha hb, mapOp_get _ hi hj ha⟩

theorem c4_witness :
    (addScalar (Grid.mk 1 1 [2]) 5).get 0 0 = Except.ok (2 + 5) :=
  (c4_elementwise_arithmetic (Grid.mk 1 1 [2]) (Grid.mk 1 1 [3]) rfl rfl
    0 0 (by decide) (by decide) 2 3 5 rfl rfl).2.2.2

/-- C5: for boolean rasters of identical shape, conjunction acts
cell-by-cell, xor of a raster with itself is all-false, or of a raster
with itself is the raster, and for any integer raster the equality
comparison with itself is all-true while the strict comparison with
itself is all-false. -/
theorem c5_boolean_and_comparison_ops (A B : Grid Bool) (D : Grid Int)
    (hr : A.rows = B.rows) (hc : A.columns = B.columns)
    (i j : Nat) (hi : i < A.rows) (hj : j < A.columns)
    (a b : Bool) (ha : A.get i j = Except.ok a)
    (hb : B.get i j = Except.ok b) :
    (∃ C, gridAnd A B = Except.ok C ∧ C.get i j = Except.ok (a && b)) ∧
    (∃ C, gridXor A A = Except.ok C ∧ ∀ x ∈ C.cells, x = false) ∧
    gridOr A A = Except.ok A ∧
    (∃ C, gridEq D D = Except.ok C ∧ ∀ x ∈ C.cells, x = true) ∧
    (∃ C, gridGt D D = Except.ok C ∧ ∀ x ∈ C.cells, x = false) :=
  ⟨zipOp_ok _ hr hc hi hj ha hb,
    zipOp_self_const _ false (fun x => Bool.xor_self x) A,
    zipOp_self_eq _ (fun x => Bool.or_self x) A,
    zipOp_self_const _ true (fun x => by simp) D,
    zipOp_self_const _ false (fun x => by simp) D⟩

theorem c5_witness :
    gridOr (Grid.mk 1 1 [true]) (Grid.mk 1 1 [true]) =
      Except.ok (Grid.mk 1 1 [true]) :=
  (c5_boolean_and_comparison_ops (Grid.mk 1 1 [true]) (Grid.mk 1 1 [true])
    (Grid.mk 1 1 [0]) rfl rfl 0 0 (by decide) (by decide) true true
    rfl rfl).2.2.1

/-- C6: every binary elementwise operator applied to two rasters with
differing rows or columns raises ShapeMismatchError; all the comparison,
arithmetic and logical grid operators are instances of zipOp. -/
theorem c6_shape_mismatch_error (α β γ : Type) (op : α → β → γ)
    (A : Grid α) (B : Grid β)
    (h : A.rows ≠ B.rows ∨ A.columns ≠ B.columns) :
    zipOp op A B = Except.error GridError.shapeMismatch := by
  rw [zipOp,
    if_neg (fun hand => h.elim (fun hne => hne hand.1) (fun hne => hne hand.2))]

theorem c6_witness :
    zipOp (· + ·) ex44 ex55 = Except.error GridError.shapeMismatch :=
  c6_shape_mismatch_error Int Int Int (· + ·) ex44 ex55 (Or.inl (by decide))

/-- C7: get and set are both bounds-checked: on a well-formed raster a
read succeeds exactly when the coordinate lies in [0, rows) x [0, columns)
and raises IndexOutOfRangeError exactly otherwise, and a write succeeds
exactly when the coordinate is in range and raises IndexOutOfRangeError
exactly otherwise; on the 4x4 example raster, get 4 0 and get 0 4 fail,
get 3 3 and get 0 0 succeed, and set 4 0 and set 0 4 fail. -/
theorem c7_bounds_checked (α : Type) (g : Grid α) (hw : g.Wf) (i j : Nat)
    (v : α) :
    ((∃ w, g.get i j = Except.ok w) ↔ (i < g.rows ∧ j < g.columns)) ∧
    (g.get i j = Except.error GridError.indexOutOfRange ↔
      ¬(i < g.rows ∧ j < g.columns)) ∧
    ((∃ g2, g.set i j v = Except.ok g2) ↔ (i < g.rows ∧ j < g.columns)) ∧
    (g.set i j v = Except.error GridError.indexOutOfRange ↔
      ¬(i < g.rows ∧ j < g.columns)) ∧
    ex44.get 4 0 = Except.error GridError.indexOutOfRange ∧
    ex44.get 0 4 = Except.error GridError.indexOutOfRange ∧
    ex44.get 3 3 = Except.ok 0 ∧
    ex44.get 0 0 = Except.ok 0 ∧
    ex44.set 4 0 0 = Except.error GridError.indexOutOfRange ∧
    ex44.set 0 4 0 = Except.error GridError.indexOutOfRange := by
  have main : ∀ i j : Nat, i < g.rows ∧ j < g.columns →
      ∃ w, g.get i j = Except.ok w := by
    intro i j hb
    obtain ⟨w, hw2, _⟩ := get_ok_of_wf hw hb.1 hb.2
    exact ⟨w, hw2⟩
  refine ⟨⟨?_, fun hb => main i j hb⟩, ⟨?_, ?_⟩, ⟨?_, ?_⟩, ⟨?_, ?_⟩, rfl,
    rfl, rfl, rfl, rfl, rfl⟩
  · rintro ⟨w, hv⟩
    by_contra hnb
    rw [Grid.get, if_neg hnb] at hv
    exact absurd hv (by simp)
  · intro herr hb
    obtain ⟨w, hv⟩ := main i j hb
    rw [hv] at herr
    exact absurd herr (by simp)
  · intro hnb
    rw [Grid.get, if_neg hnb]
  · rintro ⟨g2, hg2⟩
    by_contra hnb
    rw [Grid.set, if_neg hnb] at hg2
    exact absurd hg2 (by simp)
  · intro hb
    exact ⟨_, by rw [Grid.set, if_pos hb]⟩
  · intro herr hb
    rw [Grid.set, if_pos hb] at herr
    exact absurd herr (by simp)
  · intro hnb
    rw [Grid.set, if_neg hnb]

theorem c7_witness :
    ex44.get 4 0 = Except.error GridError.indexOutOfRange :=
  (c7_bounds_checked Int ex44 rfl 0 0 0).2.2.2.2.1

/-- C8: a bounds-checked write followed by a read of the same in-range
cell yields the written value: the mutation lands in the underlying
buffer, which keeps its shape and length. -/
theorem c8_set_then_get (α : Type) (g : Grid α) (hw : g.Wf) (i j : Nat)
    (hi : i < g.rows) (hj : j < g.columns) (v : α) :
    ∃ g2, g.set i j v = Except.ok g2 ∧ g2.get i j = Except.ok v ∧
      g2.rows = g.rows ∧ g2.columns = g.columns ∧ g2.Wf := by
  have hlt := column_major_index_lt hw hi hj
  refine ⟨⟨g.rows, g.columns, g.cells.set (j * g.rows + i) v⟩, ?_, ?_, rfl,
    rfl, ?_⟩
  · rw [Grid.set, if_pos ⟨hi, hj⟩]
  · rw [Grid.get, if_pos ⟨hi, hj⟩]
    rw [List.getElem?_set_eq_of_lt v hlt]
  · simp only [Grid.Wf, List.length_set]
    exact hw

theorem c8_witness :
    ∃ g2, ex44.set 2 2 2 = Except.ok g2 ∧ g2.get 2 2 = Except.ok 2 ∧
      g2.rows = ex44.rows ∧ g2.columns = ex44.columns ∧ g2.Wf :=
  c8_set_then_get Int ex44 rfl 2 2 (by decide) (by decide) 2

/-- Modelled from the spec: an IEEE-style floating-point cell value for
the division contract — a finite value, a signed infinity or NaN.  Finite
values carry a rational; rounding is irrelevant to the division-by-zero
behaviour this models. -/
inductive FP where
  | num (q : ℚ)
  | posInf
  | negInf
  | nan
deriving DecidableEq

def FP.isFinite : FP → Bool
  | .num _ => true
  | _ => false

/-- Modelled from the spec: IEEE float division — division by zero
produces an infinity (or NaN for 0/0 and nonsense operands) rather than
raising. -/
def fdiv : FP → FP → FP
  | .nan, _ => .nan
  | _, .nan => .nan
  | .num a, .num b =>
    if b = 0 then
      if a = 0 then .nan else if 0 < a then .posInf else .negInf
    else .num (a / b)
  | .num _, .posInf => .num 0
  | .num _, .negInf => .num 0
  | .posInf, .num b => if 0 ≤ b then .posInf else .negInf
  | .negInf, .num b => if 0 ≤ b then .negInf else .posInf
  | .posInf, .posInf => .nan
  | .posInf, .negInf => .nan
  | .negInf, .posInf => .nan
  | .negInf, .negInf => .nan

def gridDiv (A B : Grid FP) : Except GridError (Grid FP) :=
  zipOp fdiv A B

def divScalar (A : Grid FP) (k : FP) : Grid FP :=
  mapOp (fun a => fdiv a k) A

theorem fdiv_zero_nonfinite (a : FP) :
    FP.isFinite (fdiv a (FP.num 0)) = false := by
  cases a with
  | num q =>
    rw [fdiv, if_pos rfl]
    split
    · rfl
    · split <;> rfl
  | posInf => rfl
  | negInf => rfl
  | nan => rfl

/-- C9: elementwise division of floating-point rasters of identical shape
never raises on a zero divisor cell: the operation succeeds and the
corresponding result cell is an infinity or NaN, both for raster/raster
division and for division by a scalar zero. -/
theorem c9_division_by_zero (A B : Grid FP)
    (hr : A.rows = B.rows) (hc : A.columns = B.columns)
    (i j : Nat) (hi : i < A.rows) (hj : j < A.columns)
    (a : FP) (ha : A.get i j = Except.ok a)
    (hb : B.get i j = Except.ok (FP.num 0)) :
    (∃ C, gridDiv A B = Except.ok C ∧
      C.get i j = Except.ok (fdiv a (FP.num 0))) ∧
    (divScalar A (FP.num 0)).get i j = Except.ok (fdiv a (FP.num 0)) ∧
    FP.isFinite (fdiv a (FP.num 0)) = false :=
  ⟨zipOp_ok _ hr hc hi hj ha hb, mapOp_get _ hi hj ha,
    fdiv_zero_nonfinite a⟩

theorem c9_witness :
    FP.isFinite (fdiv (FP.num 1) (FP.num 0)) = false :=
  (c9_division_by_zero (Grid.mk 1 1 [FP.num 1]) (Grid.mk 1 1 [FP.num 0])
    rfl rfl 0 0 (by decide) (by decide) (FP.num 1) rfl rfl).2.2

/-- Modelled from the spec: the default raster dimensions used when the
synthetic generators are called with no dimension arguments (the example
notebooks call `gen_random_bool()` bare); the spec fixes only that the
generator succeeds for positive dimensions, so the defaults are the 32x32
shape the notebooks use elsewhere. -/
def defaultRows : Nat := 32

def defaultColumns : Nat := 32

/-- Modelled from the spec: the uniform-random boolean synthetic
generator — fails with `InvalidDimensionError` when `rows` or `columns`
is not positive, otherwise fills a fresh `rows * columns` buffer from the
random source `rng`. -/
def gen_random_bool (rng : Nat → Bool) (rows cols : Nat) :
    Except GridError (Grid Bool) :=
  if rows = 0 ∨ cols = 0 then Except.error GridError.invalidDimension
  else Except.ok ⟨rows, cols, (List.range (rows * cols)).map rng⟩

/-- Modelled from the spec: the random smooth-hill terrain generator,
abstracted over its random source; only its shape behaviour is fixed by
the spec. -/
def gen_random (rng : Nat → FP) (rows cols : Nat) :
    Except GridError (Grid FP) :=
  if rows = 0 ∨ cols = 0 then Except.error GridError.invalidDimension
  else Except.ok ⟨rows, cols, (List.range (rows * cols)).map rng⟩

/-- Modelled from the spec: `gen_random_bool()` called with no dimension
arguments uses the default dimensions. -/
def gen_random_bool_default (rng : Nat → Bool) :
    Except GridError (Grid Bool) :=
  gen_random_bool rng defaultRows defaultColumns

/-- Modelled from the spec: `gen_random()` called with dimensions
omitted uses the default dimensions. -/
def gen_random_default (rng : Nat → FP) : Except GridError (Grid FP) :=
  gen_random rng defaultRows defaultColumns

/-- C10: the synthetic generators succeed when called with no dimension
arguments, producing rasters with positive default rows and columns whose
buffer length equals rows times columns. -/
theorem c10_generator_defaults (rng : Nat → Bool) (rngf : Nat → FP) :
    (∃ g, gen_random_bool_default rng = Except.ok g ∧
      0 < g.rows ∧ 0 < g.columns ∧ g.Wf) ∧
    (∃ g, gen_random_default rngf = Except.ok g ∧
      0 < g.rows ∧ 0 < g.columns ∧ g.Wf) := by
  constructor
  · refine ⟨⟨defaultRows, defaultColumns,
      (List.range (defaultRows * defaultColumns)).map rng⟩, ?_,
      by simp [defaultRows], by simp [defaultColumns], ?_⟩
    · rw [gen_random_bool_default, gen_random_bool, if_neg (by decide)]
    · simp [Grid.Wf]
  · refine ⟨⟨defaultRows, defaultColumns,
      (List.range (defaultRows * defaultColumns)).map rngf⟩, ?_,
      by simp [defaultRows], by simp [defaultColumns], ?_⟩
    · rw [gen_random_default, gen_random, if_neg (by decide)]
    · simp [Grid.Wf]

theorem c10_witness :
    (∃ g, gen_random_bool_default (fun _ => true) = Except.ok g ∧
      0 < g.rows ∧ 0 < g.columns ∧ g.Wf) ∧
    (∃ g, gen_random_default (fun _ => FP.num 0) = Except.ok g ∧
      0 < g.rows ∧ 0 < g.columns ∧ g.Wf) :=
  c10_generator_defaults (fun _ => true) (fun _ => FP.num 0)

end PyTopoToolbox
